import Mathlib

/-!
Verification of the reservoir authentication gateway against its
natural-language specification.  The Go sources are shallowly embedded:
pure functions become Lean functions, the Redis key-value store and the
relational user directory become explicit state values threaded through
the operations, and fallible calls return `Except`.
-/

deriving instance DecidableEq for Except

namespace Reservoir

/-! ## Token codec (internal/token/jwt.go, internal/token/claims.go)

A compact JWT is modelled structurally: a header naming the signing
algorithm, the claims, and a signature.  HMAC is modelled as a perfect
MAC: the signature produced by signing method `a` with key `k` over
claims `c` is the triple `(a, k, c)`, and verification succeeds exactly
when the stored signature equals the recomputation — which is how the
real construction behaves in the absence of collisions. -/

/-- JWT signing algorithms occurring in the claims under study.
`SigningMethodHMAC` in golang-jwt covers hs256, hs384 and hs512. -/
inductive Alg
  | hs256
  | hs384
  | hs512
  | rs256
  | es256
  | noAlg
  deriving DecidableEq, Repr

/-- The Go type switch `token.Method.(*jwt.SigningMethodHMAC)`:
true exactly for the HMAC family. -/
def Alg.isHMAC : Alg → Bool
  | .hs256 => true
  | .hs384 => true
  | .hs512 => true
  | _ => false

/-- Go `token.Claims` (claims.go) together with the embedded
`jwt.RegisteredClaims`.  Times are seconds since the epoch. -/
structure Claims where
  userID : Int
  boddleUID : String
  email : String
  name : String
  metaType : String
  metaID : Int
  expiresAt : Nat
  issuedAt : Nat
  notBefore : Nat
  issuer : String
  subject : String
  jti : String
  deriving DecidableEq, Repr

/-- An HMAC tag: determined by the signing method, the key and the
signed content. -/
structure MacSig where
  alg : Alg
  key : String
  payload : Claims
  deriving DecidableEq, Repr

/-- Computing the MAC over the serialized header and claims. -/
def hmacSign (a : Alg) (key : String) (c : Claims) : MacSig :=
  ⟨a, key, c⟩

/-- A compact-serialized token: header algorithm, claims, signature. -/
structure Token where
  alg : Alg
  claims : Claims
  sig : MacSig
  deriving DecidableEq, Repr

/-- Errors of `Service.Validate`, following the golang-jwt v5 parser:
the keyfunc rejects non-HMAC methods, then the signature is verified,
then the registered claims (exp before nbf) are validated. -/
inductive ValidateError
  | wrongAlgorithm
  | badSignature
  | expired
  | notYetValid
  deriving DecidableEq, Repr

/-- Go `Service.Generate` (jwt.go lines 30-57), access half: builds the
access claims with `exp = now + accessTokenTTL`, `iat = nbf = now`,
fixed issuer, decimal subject, the supplied `jti`, and signs with
HS256 under the access secret. -/
def generateAccess (secretKey : String) (accessTokenTTL : Nat) (now : Nat)
    (userID : Int) (boddleUID email name metaType : String) (metaID : Int)
    (jti : String) : Token :=
  let c : Claims :=
    { userID := userID
      boddleUID := boddleUID
      email := email
      name := name
      metaType := metaType
      metaID := metaID
      expiresAt := now + accessTokenTTL
      issuedAt := now
      notBefore := now
      issuer := "boddle-auth-gateway"
      subject := toString userID
      jti := jti }
  { alg := .hs256, claims := c, sig := hmacSign .hs256 secretKey c }

/-- Go `Service.Validate` (jwt.go lines 84-103) on top of the golang-jwt
v5 parser.  The keyfunc returns the access secret for any HMAC-family
method and errors otherwise; the parser then verifies the signature
with the header's method and finally validates `exp` and `nbf`
(`nbf ≤ now < exp`, no leeway, `iat` unchecked). -/
def validate (secretKey : String) (now : Nat) (t : Token) :
    Except ValidateError Claims :=
  if !t.alg.isHMAC then
    .error .wrongAlgorithm
  else if t.sig ≠ hmacSign t.alg secretKey t.claims then
    .error .badSignature
  else if !decide (now < t.claims.expiresAt) then
    .error .expired
  else if !decide (t.claims.notBefore ≤ now) then
    .error .notYetValid
  else
    .ok t.claims

/-! ## Key-value store (Redis, as used by ratelimit and token packages)

The store maps string keys to integer values carrying an optional
time-to-live.  Redis removes a key the moment its TTL reaches zero, so
a present entry with `ttl = some t` has `t > 0`; `ttl = none` is a key
without expiry (created by a bare `INCR`).  `TTL` reports `-2` for a
missing key and `-1` for a key without expiry, matching the values the
Go client surfaces. -/

structure Entry where
  value : Nat
  ttl : Option Nat
  deriving DecidableEq, Repr

abbrev KV := List (String × Entry)

def kvLookup (kv : KV) (k : String) : Option Entry :=
  (kv.find? (fun e => e.1 == k)).map (fun e => e.2)

/-- Redis `DEL`. -/
def kvDel (kv : KV) (k : String) : KV :=
  kv.filter (fun e => !(e.1 == k))

/-- Redis `SET key value EX ttl`. -/
def kvSet (kv : KV) (k : String) (v : Nat) (ttl : Nat) : KV :=
  (k, ⟨v, some ttl⟩) :: kvDel kv k

/-- Redis `INCR`: creates the key at 1 with no expiry when absent,
otherwise increments preserving the TTL; returns the new value. -/
def kvIncr (kv : KV) (k : String) : Nat × KV :=
  match kvLookup kv k with
  | some e => (e.value + 1, (k, ⟨e.value + 1, e.ttl⟩) :: kvDel kv k)
  | none => (1, (k, ⟨1, none⟩) :: kv)

/-- Redis `EXPIRE`: no-op on a missing key. -/
def kvExpire (kv : KV) (k : String) (ttl : Nat) : KV :=
  match kvLookup kv k with
  | some e => (k, ⟨e.value, some ttl⟩) :: kvDel kv k
  | none => kv

/-- Redis `TTL`: -2 when missing, -1 when the key has no expiry. -/
def kvTTL (kv : KV) (k : String) : Int :=
  match kvLookup kv k with
  | none => -2
  | some ⟨_, none⟩ => -1
  | some ⟨_, some t⟩ => (t : Int)

/-- One second of wall-clock time: every finite TTL decreases by one
and keys whose TTL reaches zero are evicted. -/
def kvStep (kv : KV) : KV :=
  kv.filterMap (fun e =>
    match e.2.ttl with
    | none => some e
    | some t => if t ≤ 1 then none else some (e.1, ⟨e.2.value, some (t - 1)⟩))

/-- Iterating `kvStep` `n` times. -/
def kvSteps (n : Nat) (kv : KV) : KV :=
  Nat.rec kv (fun _ acc => kvStep acc) n

/-! ## Rate limiter (src/unnamed/part_010, package ratelimit) -/

structure Limiter where
  window : Nat
  maxAttempts : Int
  lockoutDuration : Nat
  deriving Repr

/-- Go `Limiter.LoginAttemptKey`: `ratelimit:login:{addr}:{email}`. -/
def loginAttemptKey (email ipAddress : String) : String :=
  "ratelimit:login:" ++ (ipAddress ++ (":" ++ email))

/-- Go `Limiter.LoginLockoutKey`: `ratelimit:lockout:{addr}:{email}`. -/
def loginLockoutKey (email ipAddress : String) : String :=
  "ratelimit:lockout:" ++ (ipAddress ++ (":" ++ email))

/-- The triple `(allowed, remainingAttempts, lockoutRemaining)` that
`CheckLoginAttempt` returns on the error-free path. -/
structure CheckResult where
  allowed : Bool
  remaining : Int
  lockoutRemaining : Int
  deriving DecidableEq, Repr

/-- Go `Limiter.CheckLoginAttempt` (part_010 lines 41-78): deny while the
lockout key has positive TTL; otherwise read the counter (0 when the
key is absent) and, once `maxAttempts - count ≤ 0`, set the lockout
marker for `lockoutDuration`, delete the counter and deny; otherwise
allow with the remaining attempt budget. -/
def checkLoginAttempt (l : Limiter) (kv : KV) (email ipAddress : String) :
    CheckResult × KV :=
  let lockoutKey := loginLockoutKey email ipAddress
  let ttl := kvTTL kv lockoutKey
  if ttl > 0 then
    (⟨false, 0, ttl⟩, kv)
  else
    let attemptKey := loginAttemptKey email ipAddress
    let count : Int := ((kvLookup kv attemptKey).map (fun e => (e.value : Int))).getD 0
    let remaining := l.maxAttempts - count
    if remaining ≤ 0 then
      let kv1 := kvSet kv lockoutKey 1 l.lockoutDuration
      let kv2 := kvDel kv1 attemptKey
      (⟨false, 0, (l.lockoutDuration : Int)⟩, kv2)
    else
      (⟨true, remaining, 0⟩, kv)

/-- Go `Limiter.RecordFailedAttempt` (part_010 lines 81-98): `INCR` the
counter and, when the increment created it (result 1), give it the
window as TTL. -/
def recordFailedAttempt (l : Limiter) (kv : KV) (email ipAddress : String) : KV :=
  let attemptKey := loginAttemptKey email ipAddress
  let (count, kv1) := kvIncr kv attemptKey
  if count = 1 then kvExpire kv1 attemptKey l.window else kv1

/-- Go `Limiter.RecordSuccessfulAttempt` (part_010 lines 101-110):
delete the counter, leaving the lockout marker untouched. -/
def recordSuccessfulAttempt (kv : KV) (email ipAddress : String) : KV :=
  kvDel kv (loginAttemptKey email ipAddress)

/-- Go `Limiter.ClearLockout` (part_010 lines 113-123): delete both keys. -/
def clearLockout (kv : KV) (email ipAddress : String) : KV :=
  kvDel (kvDel kv (loginLockoutKey email ipAddress)) (loginAttemptKey email ipAddress)

/-! ## User directory (src/unnamed/part_011 and part_012, package user)

The shared relational store, embedded as lists of rows.  `sql.NullString`
becomes `Option String`; row lookups are `find?` over the list, matching
the single-row `SELECT ... WHERE col = $1` queries. -/

structure User where
  id : Int
  email : String
  passwordDigest : String
  boddleUID : Option String
  metaType : String
  metaID : Int
  deriving DecidableEq, Repr

structure Teacher where
  id : Int
  userID : Int
  firstName : String
  lastName : String
  googleUID : Option String
  cleverUID : Option String
  deriving DecidableEq, Repr

structure Student where
  id : Int
  userID : Int
  username : String
  firstName : String
  lastName : String
  googleUID : Option String
  cleverUID : Option String
  icloudUID : Option String
  deriving DecidableEq, Repr

structure Parent where
  id : Int
  userID : Int
  firstName : String
  lastName : String
  icloudUID : Option String
  deriving DecidableEq, Repr

/-- Go `login_tokens` row for magic links.  `createdAt` in epoch seconds. -/
structure LoginToken where
  id : Int
  userID : Int
  secret : String
  permanent : Bool
  createdAt : Nat
  deriving DecidableEq, Repr

/-- The role-specific extension a `UserWithMeta` carries. -/
inductive MetaRec
  | teacher (t : Teacher)
  | student (s : Student)
  | parent (p : Parent)
  deriving DecidableEq, Repr

structure Directory where
  users : List User
  teachers : List Teacher
  students : List Student
  parents : List Parent
  loginTokens : List LoginToken
  deriving DecidableEq, Repr

/-- Go `Repository.FindByEmail`: `WHERE email = $1` (exact match). -/
def findByEmail (d : Directory) (email : String) : Option User :=
  d.users.find? (fun u => u.email == email)

/-- Go `Repository.FindByID`. -/
def findByID (d : Directory) (id : Int) : Option User :=
  d.users.find? (fun u => u.id == id)

/-- Go `Repository.FindTeacher`. -/
def findTeacher (d : Directory) (id : Int) : Option Teacher :=
  d.teachers.find? (fun t => t.id == id)

/-- Go `Repository.FindStudent`. -/
def findStudent (d : Directory) (id : Int) : Option Student :=
  d.students.find? (fun s => s.id == id)

/-- Go `Repository.FindParent`. -/
def findParent (d : Directory) (id : Int) : Option Parent :=
  d.parents.find? (fun p => p.id == id)

/-- Go `Repository.FindTeacherByGoogleUID`: `WHERE google_uid = $1`. -/
def findTeacherByGoogleUID (d : Directory) (uid : String) : Option Teacher :=
  d.teachers.find? (fun t => t.googleUID == some uid)

/-- Go `Repository.FindStudentByGoogleUID`. -/
def findStudentByGoogleUID (d : Directory) (uid : String) : Option Student :=
  d.students.find? (fun s => s.googleUID == some uid)

/-- Go `Repository.FindWithMeta` (part_011 lines 77-114): load the user,
then the role record selected by `meta_type`; an unmatched discriminator
or a missing role row leaves the meta empty (a nil interface in Go). -/
def findWithMeta (d : Directory) (userID : Int) : Option (User × Option MetaRec) :=
  match findByID d userID with
  | none => none
  | some u =>
    let meta : Option MetaRec :=
      if u.metaType = "Teacher" then (findTeacher d u.metaID).map MetaRec.teacher
      else if u.metaType = "Student" then (findStudent d u.metaID).map MetaRec.student
      else if u.metaType = "Parent" then (findParent d u.metaID).map MetaRec.parent
      else none
    some (u, meta)

/-- Go `UserWithMeta.GetFullName` (part_012): first and last name of the
role record, or the empty string when no meta is attached. -/
def getFullName (meta : Option MetaRec) : String :=
  match meta with
  | some (.teacher t) => t.firstName ++ " " ++ t.lastName
  | some (.student s) => s.firstName ++ " " ++ s.lastName
  | some (.parent p) => p.firstName ++ " " ++ p.lastName
  | none => ""

/-- Go `Repository.FindLoginToken`: `WHERE secret = $1`. -/
def findLoginToken (d : Directory) (secret : String) : Option LoginToken :=
  d.loginTokens.find? (fun t => t.secret == secret)

/-- Go `Repository.DeleteLoginToken`: `DELETE FROM login_tokens WHERE id = $1`. -/
def deleteLoginToken (d : Directory) (id : Int) : Directory :=
  { d with loginTokens := d.loginTokens.filter (fun t => !(t.id == id)) }

/-- Go `Repository.UpdateTeacherGoogleUID`: `UPDATE teachers SET google_uid = $1
WHERE id = $3`. -/
def updateTeacherGoogleUID (d : Directory) (teacherID : Int) (uid : String) : Directory :=
  { d with teachers := d.teachers.map (fun t =>
      if t.id == teacherID then { t with googleUID := some uid } else t) }

/-- Go `Repository.UpdateStudentGoogleUID`. -/
def updateStudentGoogleUID (d : Directory) (studentID : Int) (uid : String) : Directory :=
  { d with students := d.students.map (fun s =>
      if s.id == studentID then { s with googleUID := some uid } else s) }

/-! ## Credential verifier (src/unnamed/part_008 and part_009, package auth)

bcrypt is modelled as a perfect password hash: a digest matches exactly
the password it was derived from. -/

/-- The digest `HashPassword` stores (salt abstracted away). -/
def bcryptDigest (password : String) : String :=
  "bcrypt-cost10$" ++ password

/-- Go `VerifyPassword` (part_008): true when the digest matches. -/
def verifyPassword (password digest : String) : Bool :=
  digest == bcryptDigest password

/-- Go `strings.TrimSpace` on the character list: drop leading and
trailing whitespace. -/
def goTrim (l : List Char) : List Char :=
  ((l.dropWhile Char.isWhitespace).reverse.dropWhile Char.isWhitespace).reverse

/-- Go `SanitizeEmail` (part_009 lines 86-88):
`strings.ToLower(strings.TrimSpace(email))`. -/
def sanitizeEmail (email : String) : String :=
  ⟨(goTrim email.data).map Char.toLower⟩

/-! ## Blacklist (src/unnamed/part_005, package token)

For the claims under study only membership and store availability
matter: the blacklist is the set of revoked jtis, and `redisDown`
models an unreachable store (every Redis call returns an error). -/

/-- Go `Blacklist.IsBlacklisted` (part_005 lines 40-49): `EXISTS` on
`blacklist:jti:{jti}`; a store failure is propagated to the caller as
an error, not swallowed. -/
def isBlacklisted (redisDown : Bool) (revoked : List String) (jti : String) :
    Except String Bool :=
  if redisDown then
    .error "failed to check blacklist"
  else
    .ok (revoked.contains jti)

/-! ## Session orchestrator (src/unnamed/part_009, package auth)

`Service` methods, with the Redis-backed collaborators made explicit:
`redisDown` models the key-value store being unreachable (each limiter
or blacklist call then returns an error), `kv` is the live store, and
the directory is threaded through and returned.  The fresh `uuid` jti
and the clock are inputs. -/

structure LoginResponse where
  accessToken : Token
  user : User
  meta : Option MetaRec
  deriving DecidableEq, Repr

inductive AuthErr
  | rateLimited (lockoutRemaining : Int)
  | invalidCredentials
  | metaLoadFailed
  deriving DecidableEq, Repr

structure AuthService where
  limiter : Limiter
  secretKey : String
  accessTokenTTL : Nat
  deriving Repr

/-- Go `Service.AuthenticateEmailPassword` (part_009 lines 149-230):
sanitize the email; consult the rate limiter (an error from it is
logged and login proceeds); look up the user; on a missing user or a
wrong password record the failure (best-effort) and return invalid
credentials; on success clear the counter, load the meta and issue the
token.  The refresh half of the token pair is not modelled.  Returns
the outcome together with the updated key-value store. -/
def authenticateEmailPassword (svc : AuthService) (redisDown : Bool)
    (dir : Directory) (kv : KV) (email password ipAddress : String)
    (now : Nat) (jti : String) : Except AuthErr LoginResponse × KV :=
  let email := sanitizeEmail email
  -- rate-limit admission, fail-open on store error
  let gate : Option CheckResult × KV :=
    if redisDown then (none, kv)
    else
      let (res, kv1) := checkLoginAttempt svc.limiter kv email ipAddress
      (some res, kv1)
  let denied : Option AuthErr :=
    match gate.1 with
    | some res => if !res.allowed then some (.rateLimited res.lockoutRemaining) else none
    | none => none
  match denied with
  | some e => (.error e, gate.2)
  | none =>
    let kv := gate.2
    match findByEmail dir email with
    | none =>
      let kv := if redisDown then kv else recordFailedAttempt svc.limiter kv email ipAddress
      (.error .invalidCredentials, kv)
    | some usr =>
      if !verifyPassword password usr.passwordDigest then
        let kv := if redisDown then kv else recordFailedAttempt svc.limiter kv email ipAddress
        (.error .invalidCredentials, kv)
      else
        let kv := if redisDown then kv else recordSuccessfulAttempt kv email ipAddress
        match findWithMeta dir usr.id with
        | none => (.error .metaLoadFailed, kv)
        | some (_, meta) =>
          let boddleUID := usr.boddleUID.getD ""
          let tok := generateAccess svc.secretKey svc.accessTokenTTL now
              usr.id boddleUID usr.email (getFullName meta) usr.metaType usr.metaID jti
          (.ok { accessToken := tok, user := usr, meta := meta }, kv)

inductive TokenAuthErr
  | invalidToken
  | tokenExpired
  | userNotFound
  deriving DecidableEq, Repr

/-- Go `Service.AuthenticateLoginToken` (part_009 lines 233-298): look up
the magic-link row by secret; missing → invalid token.  For a
non-permanent token: past `created_at + 5 min` → expired (the row is
left in place); otherwise delete the row (best-effort) before loading
the subject.  Then load the user with meta and issue the token.
Returns the outcome with the updated directory. -/
def authenticateLoginToken (svc : AuthService) (dir : Directory)
    (secret : String) (now : Nat) (jti : String) :
    Except TokenAuthErr LoginResponse × Directory :=
  match findLoginToken dir secret with
  | none => (.error .invalidToken, dir)
  | some lt =>
    if !lt.permanent ∧ lt.createdAt + 300 < now then
      (.error .tokenExpired, dir)
    else
      let dir1 := if lt.permanent then dir else deleteLoginToken dir lt.id
      match findWithMeta dir1 lt.userID with
      | none => (.error .userNotFound, dir1)
      | some (usr, meta) =>
        let boddleUID := usr.boddleUID.getD ""
        let tok := generateAccess svc.secretKey svc.accessTokenTTL now
            usr.id boddleUID usr.email (getFullName meta) usr.metaType usr.metaID jti
        (.ok { accessToken := tok, user := usr, meta := meta }, dir1)

inductive ValidateTokenErr
  | invalidToken (e : ValidateError)
  | blacklistCheckFailed
  | tokenRevoked
  deriving DecidableEq, Repr

/-- Go `Service.ValidateToken` (part_009 lines 300-319): validate the
signature and times, then consult the blacklist; an error from the
blacklist check is returned to the caller (`failed to check
blacklist`), and a revoked jti yields `token revoked`. -/
def validateToken (svc : AuthService) (redisDown : Bool)
    (revoked : List String) (now : Nat) (t : Token) :
    Except ValidateTokenErr Claims :=
  match validate svc.secretKey now t with
  | .error e => .error (.invalidToken e)
  | .ok claims =>
    match isBlacklisted redisDown revoked claims.jti with
    | .error _ => .error .blacklistCheckFailed
    | .ok true => .error .tokenRevoked
    | .ok false => .ok claims

/-! ## HTTP boundary (src/internal/auth/handler.go) -/

/-- A response the login endpoint produces: status, and for errors the
envelope's code plus the (absent) retry-after field. -/
inductive HttpLoginResult
  | ok (status : Nat) (body : LoginResponse)
  | err (status : Nat) (code : String) (retryAfterSeconds : Option Int)
  deriving DecidableEq, Repr

/-- Go `Handler.Login` (handler.go lines 23-48): every error from
`AuthenticateEmailPassword` — rate-limit denial included — is mapped
to HTTP 401 with code `INVALID_CREDENTIALS` and no retry-after. -/
def loginHandler (svc : AuthService) (redisDown : Bool) (dir : Directory)
    (kv : KV) (email password ipAddress : String) (now : Nat) (jti : String) :
    HttpLoginResult × KV :=
  match authenticateEmailPassword svc redisDown dir kv email password ipAddress now jti with
  | (.error _, kv1) => (.err 401 "INVALID_CREDENTIALS" none, kv1)
  | (.ok resp, kv1) => (.ok 200 resp, kv1)

/-! ## Federated identity (src/internal/oauth/service.go) -/

inductive OAuthErr
  | noAccount
  | metaNotFound
  | unsupportedUserType (metaType : String)
  deriving DecidableEq, Repr

/-- Go `AuthService.findOrCreateGoogleUser` (service.go lines 93-173):
resolve the Google subject against the teacher then the student table;
on a hit return that row's user (a dangling `user_id` surfaces as a
nil user, hence the `Option`).  Otherwise resolve the email against
the users table: absent → no-account error; present → link by writing
the Google UID onto the Teacher or Student role record; any other
discriminator is refused.  Returns the outcome with the updated
directory. -/
def findOrCreateGoogleUser (dir : Directory) (providerUserID email : String) :
    Except OAuthErr (Option User × MetaRec) × Directory :=
  match findTeacherByGoogleUID dir providerUserID with
  | some t => (.ok (findByID dir t.userID, .teacher t), dir)
  | none =>
    match findStudentByGoogleUID dir providerUserID with
    | some s => (.ok (findByID dir s.userID, .student s), dir)
    | none =>
      match findByEmail dir email with
      | none => (.error .noAccount, dir)
      | some usr =>
        if usr.metaType = "Teacher" then
          match findTeacher dir usr.metaID with
          | none => (.error .metaNotFound, dir)
          | some t =>
            let dir1 := updateTeacherGoogleUID dir t.id providerUserID
            (.ok (some usr, .teacher { t with googleUID := some providerUserID }), dir1)
        else if usr.metaType = "Student" then
          match findStudent dir usr.metaID with
          | none => (.error .metaNotFound, dir)
          | some s =>
            let dir1 := updateStudentGoogleUID dir s.id providerUserID
            (.ok (some usr, .student { s with googleUID := some providerUserID }), dir1)
        else (.error (.unsupportedUserType usr.metaType), dir)

/-! ## A failed password attempt as the orchestrator drives the limiter

`AuthenticateEmailPassword` on a wrong password first runs the
admission check and then, when admitted, records the failure; this is
the per-attempt protocol the lockout scenario iterates. -/

def failedLoginAttempt (l : Limiter) (kv : KV) (email ipAddress : String) :
    CheckResult × KV :=
  let (res, kv1) := checkLoginAttempt l kv email ipAddress
  if res.allowed then (res, recordFailedAttempt l kv1 email ipAddress) else (res, kv1)

/-! ## Concrete fixtures used by witnesses and counterexamples -/

/-- The default limiter configuration: window 10 min, 5 attempts,
lockout 15 min. -/
def limiterDefault : Limiter := ⟨600, 5, 900⟩

/-- A service with the default limiter, the access secret and the
default 6 h access lifetime. -/
def svcDefault : AuthService := ⟨⟨600, 5, 900⟩, "access-secret", 21600⟩

/-- A sample claim set. -/
def sampleClaims : Claims :=
  ⟨7, "b", "e@x.co", "n", "Teacher", 1, 100, 0, 0, "boddle-auth-gateway", "7", "j"⟩

/-- A directory holding one teacher account `x@y.com`. -/
def dirPassword : Directory :=
  ⟨[⟨5, "x@y.com", bcryptDigest "pw123", some "u-5", "Teacher", 77⟩],
   [⟨77, 5, "A", "B", none, none⟩], [], [], []⟩

/-- A store in which the pair (`x@y.com`, `10.0.0.1`) is locked out
with 900 s remaining. -/
def kvLockedOut : KV :=
  [(loginLockoutKey "x@y.com" "10.0.0.1", ⟨1, some 900⟩)]

/-- A directory holding a teacher and a non-persistent magic-link row
created at time 0. -/
def dirMagicLink : Directory :=
  ⟨[⟨123, "t@example.com", bcryptDigest "pw", some "u-123", "Teacher", 77⟩],
   [⟨77, 123, "A", "B", none, none⟩], [], [], [⟨1, 123, "abc123", false, 0⟩]⟩

/-- A directory whose only magic-link row points at a missing user. -/
def dirOrphanToken : Directory :=
  ⟨[], [], [], [], [⟨1, 999, "orphan", false, 0⟩]⟩

/-- A directory whose only account is a parent. -/
def dirParentOnly : Directory :=
  ⟨[⟨1, "p@x.com", bcryptDigest "pw", none, "Parent", 9⟩],
   [], [], [⟨9, 1, "A", "B", none⟩], []⟩

/-- A store in which the pair (`x@y.com`, `10.0.0.1`) has five
recorded failures inside the window. -/
def kvCounter5 : KV :=
  [(loginAttemptKey "x@y.com" "10.0.0.1", ⟨5, some 600⟩)]

/-- The spec's rate-limiter invariant: for every (email, address)
pair, whenever the lockout marker exists the attempt counter is
absent. -/
def lockoutCounterInvariant (kv : KV) : Prop :=
  ∀ email ipAddress : String,
    kvLookup kv (loginLockoutKey email ipAddress) ≠ none →
    kvLookup kv (loginAttemptKey email ipAddress) = none

/-! ## Shared lemmas about strings, keys and the store -/

lemma string_append_left_cancel {p s1 s2 : String} (h : p ++ s1 = p ++ s2) : s1 = s2 := by
  obtain ⟨a⟩ := p
  obtain ⟨b⟩ := s1
  obtain ⟨c⟩ := s2
  have h2 : a ++ b = a ++ c := congrArg String.data h
  exact congrArg String.mk (List.append_cancel_left h2)

/-- The lockout namespace and the login-counter namespace never
collide, whatever the address and identity parts are. -/
lemma lockoutKey_ne_attemptKey (e1 i1 e2 i2 : String) :
    loginLockoutKey e1 i1 ≠ loginAttemptKey e2 i2 := by
  unfold loginLockoutKey loginAttemptKey
  generalize i1 ++ (":" ++ e1) = s1
  generalize i2 ++ (":" ++ e2) = s2
  obtain ⟨b⟩ := s1
  obtain ⟨c⟩ := s2
  intro h
  have h2 : ("ratelimit:lockout:".data ++ b) = ("ratelimit:login:".data ++ c) :=
    congrArg String.data h
  have h3 : ("ratelimit:lockout:".data ++ b)[12]? = ("ratelimit:login:".data ++ c)[12]? := by
    rw [h2]
  rw [List.getElem?_append_left (by decide), List.getElem?_append_left (by decide)] at h3
  exact absurd h3 (by decide)

/-- Two pairs address the same counter key exactly when they address
the same lockout key (both keys are the shared suffix under distinct
prefixes). -/
lemma attemptKey_eq_iff_lockoutKey_eq (e1 i1 e2 i2 : String) :
    loginAttemptKey e1 i1 = loginAttemptKey e2 i2 ↔
      loginLockoutKey e1 i1 = loginLockoutKey e2 i2 := by
  unfold loginAttemptKey loginLockoutKey
  constructor
  · intro h
    exact congrArg (fun s => "ratelimit:lockout:" ++ s) (string_append_left_cancel h)
  · intro h
    exact congrArg (fun s => "ratelimit:login:" ++ s) (string_append_left_cancel h)

def kvKeys (kv : KV) : List String := kv.map Prod.fst

lemma kvLookup_nil (key : String) : kvLookup ([] : KV) key = none := rfl

lemma kvLookup_cons (e : String × Entry) (kv : KV) (key : String) :
    kvLookup (e :: kv) key = if e.1 = key then some e.2 else kvLookup kv key := by
  by_cases h : e.1 = key <;> simp [kvLookup, List.find?_cons, h]

lemma kvDel_cons (e : String × Entry) (kv : KV) (k : String) :
    kvDel (e :: kv) k = if e.1 = k then kvDel kv k else e :: kvDel kv k := by
  by_cases h : e.1 = k <;> simp [kvDel, List.filter_cons, h]

lemma kvLookup_kvDel (kv : KV) (k key : String) :
    kvLookup (kvDel kv k) key = if key = k then none else kvLookup kv key := by
  induction kv with
  | nil => by_cases h : key = k <;> simp [kvDel, kvLookup_nil, h]
  | cons e rest ih =>
    rw [kvDel_cons]
    by_cases hek : e.1 = k
    · rw [if_pos hek, ih]
      by_cases hkey : key = k
      · simp [hkey]
      · rw [if_neg hkey, if_neg hkey, kvLookup_cons,
          if_neg (by rw [hek]; exact fun hc => hkey hc.symm)]
    · rw [if_neg hek, kvLookup_cons, kvLookup_cons, ih]
      by_cases hek2 : e.1 = key
      · rw [if_pos hek2, if_pos hek2, if_neg (by rw [← hek2]; exact fun hc => hek hc)]
      · rw [if_neg hek2, if_neg hek2]

lemma kvLookup_kvSet (kv : KV) (k : String) (v ttl : Nat) (key : String) :
    kvLookup (kvSet kv k v ttl) key =
      if key = k then some ⟨v, some ttl⟩ else kvLookup kv key := by
  rw [kvSet, kvLookup_cons, kvLookup_kvDel]
  by_cases h : key = k
  · simp [h]
  · simp [h, Ne.symm h]

lemma kvLookup_kvIncr_ne (kv : KV) (k key : String) (h : key ≠ k) :
    kvLookup (kvIncr kv k).2 key = kvLookup kv key := by
  unfold kvIncr
  cases hkv : kvLookup kv k <;>
    simp [kvLookup_cons, kvLookup_kvDel, h, Ne.symm h]

lemma kvLookup_kvExpire_ne (kv : KV) (k : String) (ttl : Nat) (key : String)
    (h : key ≠ k) :
    kvLookup (kvExpire kv k ttl) key = kvLookup kv key := by
  unfold kvExpire
  cases hkv : kvLookup kv k <;>
    simp [kvLookup_cons, kvLookup_kvDel, h, Ne.symm h]

lemma kvLookup_recordFailedAttempt_ne (l : Limiter) (kv : KV) (e i key : String)
    (h : key ≠ loginAttemptKey e i) :
    kvLookup (recordFailedAttempt l kv e i) key = kvLookup kv key := by
  unfold recordFailedAttempt
  by_cases hc : (kvIncr kv (loginAttemptKey e i)).1 = 1 <;>
    simp [hc, kvLookup_kvExpire_ne _ _ _ _ h, kvLookup_kvIncr_ne _ _ _ h]

lemma kvLookup_eq_none_iff (kv : KV) (key : String) :
    kvLookup kv key = none ↔ key ∉ kvKeys kv := by
  induction kv with
  | nil => simp [kvLookup_nil, kvKeys]
  | cons e rest ih =>
    rw [kvLookup_cons, kvKeys, List.map_cons, List.mem_cons]
    by_cases h : e.1 = key
    · simp [h]
    · simp only [if_neg h]
      rw [ih]
      constructor
      · intro hn hm
        rcases hm with hm | hm
        · exact h hm.symm
        · exact hn hm
      · intro hn
        exact fun hm => hn (Or.inr hm)

lemma kvKeys_kvStep_sublist (kv : KV) : (kvKeys (kvStep kv)).Sublist (kvKeys kv) := by
  induction kv with
  | nil => simp [kvStep, kvKeys]
  | cons e rest ih =>
    rw [kvStep, List.filterMap_cons]
    cases ht : e.2.ttl with
    | none => simpa [kvKeys] using ih.cons₂ e.1
    | some t =>
      by_cases h1 : t ≤ 1
      · simp only [if_pos h1]
        exact (ih.trans (List.sublist_cons_self _ _) : _)
      · simp only [if_neg h1]
        simpa [kvKeys] using ih.cons₂ e.1

lemma kvKeys_nodup_kvStep {kv : KV} (h : (kvKeys kv).Nodup) :
    (kvKeys (kvStep kv)).Nodup :=
  (kvKeys_kvStep_sublist kv).nodup h

/-- Countdown semantics of `kvStep` for a uniquely keyed store. -/
lemma kvLookup_kvStep {kv : KV} (hnd : (kvKeys kv).Nodup) (key : String) :
    kvLookup (kvStep kv) key =
      (kvLookup kv key).bind (fun e =>
        match e.ttl with
        | none => some e
        | some t => if t ≤ 1 then none else some ⟨e.value, some (t - 1)⟩) := by
  induction kv with
  | nil => simp [kvStep, kvLookup_nil]
  | cons e rest ih =>
    have hndr : (kvKeys rest).Nodup := (List.nodup_cons.mp hnd).2
    have hmem : e.1 ∉ kvKeys rest := (List.nodup_cons.mp hnd).1
    obtain ⟨a, v0, t0⟩ := e
    cases t0 with
    | none =>
      by_cases hk : a = key
      · simp [kvStep, List.filterMap_cons, kvLookup_cons, hk]
      · simpa [kvStep, List.filterMap_cons, kvLookup_cons, hk] using ih hndr
    | some t =>
      by_cases h1 : t ≤ 1
      · by_cases hk : a = key
        · have hrest : kvLookup rest key = none :=
            (kvLookup_eq_none_iff rest key).mpr (hk ▸ hmem)
          have habs : key ∉ kvKeys (kvStep rest) := fun hm =>
            ((kvLookup_eq_none_iff rest key).mp hrest)
              ((kvKeys_kvStep_sublist rest).subset hm)
          have hstep : kvLookup (kvStep rest) key = none :=
            (kvLookup_eq_none_iff _ key).mpr habs
          simpa [kvStep, List.filterMap_cons, h1, kvLookup_cons, hk] using hstep
        · simpa [kvStep, List.filterMap_cons, h1, kvLookup_cons, hk] using ih hndr
      · by_cases hk : a = key
        · simp [kvStep, List.filterMap_cons, h1, kvLookup_cons, hk]
        · simpa [kvStep, List.filterMap_cons, h1, kvLookup_cons, hk] using ih hndr

lemma kvSteps_succ (n : Nat) (kv : KV) : kvSteps (n + 1) kv = kvStep (kvSteps n kv) := rfl

/-- An entry with `t` seconds to live still holds value `v` with
`t - k` seconds left after `k < t` seconds, and key uniqueness is
preserved. -/
lemma kvSteps_lookup_entry {kv : KV} {key : String} {v t : Nat}
    (hnd : (kvKeys kv).Nodup) (h : kvLookup kv key = some ⟨v, some t⟩)
    (k : Nat) (hk : k < t) :
    kvLookup (kvSteps k kv) key = some ⟨v, some (t - k)⟩ ∧
      (kvKeys (kvSteps k kv)).Nodup := by
  induction k with
  | zero => exact ⟨by simpa using h, hnd⟩
  | succ k ih =>
    have hk' : k < t := Nat.lt_of_succ_lt hk
    obtain ⟨hl, hn⟩ := ih hk'
    rw [kvSteps_succ]
    refine ⟨?_, kvKeys_nodup_kvStep hn⟩
    rw [kvLookup_kvStep hn key, hl]
    have h2 : ¬ (t - k ≤ 1) := by omega
    have h3 : t - k - 1 = t - (k + 1) := by omega
    simp [h2, h3]

/-! ## Claim theorems -/

/-- C5: for every well-formed claim set (user id, boddle uid, email,
name, meta type, meta id) and configured access lifetime, validating
the access token produced by `Generate` under the same secret — at any
instant of its validity window — returns exactly the claims `Generate`
embedded, and the token's `exp` minus `iat` equals the configured
lifetime. -/
theorem C5_token_round_trip (secretKey : String) (accessTokenTTL now checkTime : Nat)
    (userID : Int) (boddleUID email name metaType : String) (metaID : Int)
    (jti : String) (h1 : now ≤ checkTime) (h2 : checkTime < now + accessTokenTTL) :
    validate secretKey checkTime
        (generateAccess secretKey accessTokenTTL now userID boddleUID email name
          metaType metaID jti) =
      .ok { userID := userID, boddleUID := boddleUID, email := email, name := name,
            metaType := metaType, metaID := metaID,
            expiresAt := now + accessTokenTTL, issuedAt := now, notBefore := now,
            issuer := "boddle-auth-gateway", subject := toString userID, jti := jti } ∧
    (now + accessTokenTTL) - now = accessTokenTTL := by
  refine ⟨?_, by omega⟩
  unfold validate generateAccess
  simp [Alg.isHMAC, hmacSign, h2, h1]

/-- Witness for C5 at the seed values of the spec's S1 scenario. -/
theorem C5_token_round_trip_witness :
    validate "access-secret" 1000
        (generateAccess "access-secret" 21600 1000 123 "1f1e" "t@example.com"
          "A B" "Teacher" 456 "jti-1") =
      .ok { userID := 123, boddleUID := "1f1e", email := "t@example.com", name := "A B",
            metaType := "Teacher", metaID := 456, expiresAt := 1000 + 21600,
            issuedAt := 1000, notBefore := 1000, issuer := "boddle-auth-gateway",
            subject := toString (123 : Int), jti := "jti-1" } ∧
    (1000 + 21600) - 1000 = 21600 :=
  C5_token_round_trip "access-secret" 21600 1000 1000 123 "1f1e" "t@example.com"
    "A B" "Teacher" 456 "jti-1" (by decide) (by decide)

/-- C1 counterexample: the claim says a token whose algorithm header
names HS384 is rejected, but a token carrying header HS384 and an
HS384 signature under the access secret is accepted by `Validate`. -/
theorem C1_counterexample :
    validate "access-secret" 50
        { alg := .hs384, claims := sampleClaims,
          sig := hmacSign .hs384 "access-secret" sampleClaims } =
      .ok sampleClaims := by decide

/-- C1 (amended): `Validate` rejects any token whose header names a
non-HMAC-family algorithm (`none`, RS256, ES256) with the
wrong-algorithm error, and a token it accepts necessarily carries an
HMAC-family header (HS256, HS384 or HS512) together with a signature
that verifies under the access secret; HS384/HS512 tokens signed with
the access secret are therefore accepted, not rejected. -/
theorem C1_algorithm_rigidity (secretKey : String) (now : Nat) (t : Token) :
    (t.alg.isHMAC = false → validate secretKey now t = .error .wrongAlgorithm) ∧
    (∀ c : Claims, validate secretKey now t = .ok c →
      t.alg.isHMAC = true ∧ t.sig = hmacSign t.alg secretKey t.claims) := by
  constructor
  · intro h
    simp [validate, h]
  · intro c hv
    by_cases h : t.alg.isHMAC
    · refine ⟨h, ?_⟩
      by_cases hs : t.sig = hmacSign t.alg secretKey t.claims
      · exact hs
      · simp [validate, h, hs] at hv
    · simp [validate, h] at hv

/-- Witness for C1: a token whose header names RS256 is rejected with
the wrong-algorithm error. -/
theorem C1_algorithm_rigidity_witness :
    validate "access-secret" 50
        { alg := .rs256, claims := sampleClaims,
          sig := hmacSign .rs256 "access-secret" sampleClaims } =
      .error .wrongAlgorithm :=
  (C1_algorithm_rigidity "access-secret" 50
    { alg := .rs256, claims := sampleClaims,
      sig := hmacSign .rs256 "access-secret" sampleClaims }).1 (by decide)

/-- C9: password authentication depends on the email argument only
through `SanitizeEmail` (lower-casing and trimming), so two calls
whose emails sanitize identically — in particular emails differing
only in letter case or surrounding whitespace — perform the same
rate-limit accesses, the same directory lookup and the same failure
recording, and return the same outcome. -/
theorem C9_email_normalization (svc : AuthService) (redisDown : Bool)
    (dir : Directory) (kv : KV) (e1 e2 password ipAddress : String)
    (now : Nat) (jti : String) (h : sanitizeEmail e1 = sanitizeEmail e2) :
    authenticateEmailPassword svc redisDown dir kv e1 password ipAddress now jti =
      authenticateEmailPassword svc redisDown dir kv e2 password ipAddress now jti := by
  unfold authenticateEmailPassword
  rw [h]

/-- Witness for C9: a case- and whitespace-mangled variant of the
stored address logs in exactly like the canonical one. -/
theorem C9_email_normalization_witness :
    authenticateEmailPassword svcDefault false dirPassword [] "  X@Y.Com "
        "pw123" "10.0.0.1" 0 "j" =
      authenticateEmailPassword svcDefault false dirPassword [] "x@y.com"
        "pw123" "10.0.0.1" 0 "j" :=
  C9_email_normalization svcDefault false dirPassword [] "  X@Y.Com " "x@y.com"
    "pw123" "10.0.0.1" 0 "j" (by decide)

/-! ### Helper lemmas shared by the remaining claims -/

lemma checkLoginAttempt_empty (svc : AuthService) (email ipAddress : String)
    (hmax : 0 < svc.limiter.maxAttempts) :
    checkLoginAttempt svc.limiter [] email ipAddress =
      (⟨true, svc.limiter.maxAttempts, 0⟩, []) := by
  unfold checkLoginAttempt
  simp [kvTTL, kvLookup_nil]
  omega

lemma findLoginToken_deleteLoginToken (dir : Directory) (s : String) (ltid : Int)
    (huniq : ∀ t ∈ dir.loginTokens, t.secret = s → t.id = ltid) :
    findLoginToken (deleteLoginToken dir ltid) s = none := by
  simp [findLoginToken, deleteLoginToken, List.find?_eq_none, List.mem_filter]
  intro t ht hneq hsec
  exact hneq (huniq t ht hsec)

lemma magic_unknown (svc : AuthService) (dir : Directory) (s : String) (now : Nat)
    (jti : String) (h : findLoginToken dir s = none) :
    authenticateLoginToken svc dir s now jti = (.error .invalidToken, dir) := by
  simp [authenticateLoginToken, h]

lemma magic_valid_state (svc : AuthService) (dir : Directory) (s : String) (now : Nat)
    (jti : String) (lt : LoginToken) (hf : findLoginToken dir s = some lt)
    (hp : lt.permanent = false) (hexp : ¬ lt.createdAt + 300 < now) :
    (authenticateLoginToken svc dir s now jti).2 = deleteLoginToken dir lt.id := by
  simp only [authenticateLoginToken, hf, hp, hexp]
  cases hm : findWithMeta (deleteLoginToken dir lt.id) lt.userID with
  | none => simp [hm]
  | some um => obtain ⟨u, meta⟩ := um; simp [hm]

lemma magic_second_use (svc : AuthService) (dir : Directory) (s : String)
    (now now2 : Nat) (jti jti2 : String) (lt : LoginToken)
    (hf : findLoginToken dir s = some lt) (hp : lt.permanent = false)
    (hexp : ¬ lt.createdAt + 300 < now)
    (huniq : ∀ t ∈ dir.loginTokens, t.secret = s → t.id = lt.id) :
    (authenticateLoginToken svc (authenticateLoginToken svc dir s now jti).2
      s now2 jti2).1 = .error .invalidToken := by
  rw [magic_valid_state svc dir s now jti lt hf hp hexp]
  rw [magic_unknown svc _ s now2 jti2 (findLoginToken_deleteLoginToken dir s lt.id huniq)]

/-- C2 counterexample: the claim says a blacklist lookup failure is
treated as not-revoked so that an otherwise valid token still
validates; in fact `ValidateToken` on a freshly generated valid token
returns the blacklist-check error when the store is unreachable. -/
theorem C2_counterexample :
    validateToken svcDefault true [] 10
        (generateAccess "access-secret" 21600 0 123 "b" "t@example.com" "n"
          "Teacher" 456 "jx") =
      .error .blacklistCheckFailed := by decide

/-- C2 (amended): only the rate limiter fails open — when the store is
unreachable, password authentication behaves exactly as against empty
counters and never touches the store; the blacklist check is
fail-closed — a store failure makes `ValidateToken` return an error
even for a token whose signature and validity window verify. -/
theorem C2_store_failure_behaviour :
    (∀ (svc : AuthService) (dir : Directory) (kv : KV)
        (email password ipAddress : String) (now : Nat) (jti : String),
        0 < svc.limiter.maxAttempts →
        (authenticateEmailPassword svc true dir kv email password ipAddress now jti).1 =
          (authenticateEmailPassword svc false dir [] email password ipAddress now jti).1 ∧
        (authenticateEmailPassword svc true dir kv email password ipAddress now jti).2 = kv) ∧
    (∀ (svc : AuthService) (revoked : List String) (now : Nat) (t : Token) (c : Claims),
        validate svc.secretKey now t = .ok c →
        validateToken svc true revoked now t = .error .blacklistCheckFailed) := by
  constructor
  · intro svc dir kv email password ipAddress now jti hmax
    simp only [authenticateEmailPassword, if_true, Bool.false_eq_true, if_false,
      checkLoginAttempt_empty svc _ ipAddress hmax]
    cases hfe : findByEmail dir (sanitizeEmail email) with
    | none => simp [hfe]
    | some usr =>
      by_cases hvp : verifyPassword password usr.passwordDigest
      · cases hfm : findWithMeta dir usr.id with
        | none => simp [hfe, hvp, hfm]
        | some um => simp [hfe, hvp, hfm]
      · simp [hfe, hvp]
  · intro svc revoked now t c hv
    unfold validateToken
    rw [hv]
    simp [isBlacklisted]

/-- Witness for C2: with the store down, a login against a state that
would otherwise be locked out proceeds exactly as against empty
counters, leaving the store untouched; and a valid token fails
validation with the blacklist-check error. -/
theorem C2_store_failure_behaviour_witness :
    ((authenticateEmailPassword svcDefault true dirPassword kvLockedOut "x@y.com"
        "pw123" "10.0.0.1" 0 "j").1 =
      (authenticateEmailPassword svcDefault false dirPassword [] "x@y.com"
        "pw123" "10.0.0.1" 0 "j").1) ∧
    validateToken svcDefault true [] 10
        (generateAccess "access-secret" 21600 0 123 "b" "t@example.com" "n"
          "Teacher" 456 "jx") =
      .error .blacklistCheckFailed :=
  ⟨(C2_store_failure_behaviour.1 svcDefault dirPassword kvLockedOut "x@y.com"
      "pw123" "10.0.0.1" 0 "j" (by decide)).1,
   C2_store_failure_behaviour.2 svcDefault [] 10
     (generateAccess "access-secret" 21600 0 123 "b" "t@example.com" "n"
       "Teacher" 456 "jx")
     { userID := 123, boddleUID := "b", email := "t@example.com", name := "n",
       metaType := "Teacher", metaID := 456, expiresAt := 21600, issuedAt := 0,
       notBefore := 0, issuer := "boddle-auth-gateway",
       subject := toString (123 : Int), jti := "jx" } (by decide)⟩

/-- C3: the login handler maps a rate-limited denial to HTTP 401 with
code INVALID_CREDENTIALS and no retry-after field — the same envelope
a wrong password produces — although the repository's own errors
package defines RATE_LIMIT_EXCEEDED with status 429 and its docs show
the gateway answering 429 with a retry hint.  Evaluated here at a
locked-out state and, for comparison, at a wrong-password attempt. -/
theorem C3_rate_limited_login_response :
    loginHandler svcDefault false dirPassword kvLockedOut "x@y.com" "pw123"
        "10.0.0.1" 0 "j" =
      (.err 401 "INVALID_CREDENTIALS" none, kvLockedOut) ∧
    (loginHandler svcDefault false dirPassword [] "x@y.com" "wrong-pw"
        "10.0.0.1" 0 "j").1 =
      .err 401 "INVALID_CREDENTIALS" none := by decide

/-- C6 counterexample: the claim says an expired non-persistent
magic-link token has its record deleted; the code returns the expired
error but leaves the directory — the token row included — unchanged. -/
theorem C6_counterexample :
    (authenticateLoginToken svcDefault dirMagicLink "abc123" 1000 "j").1 =
      .error .tokenExpired ∧
    (authenticateLoginToken svcDefault dirMagicLink "abc123" 1000 "j").2 =
      dirMagicLink := by decide

/-- C6 (amended): an unknown secret yields the invalid-token error; a
non-persistent token past `created_at + 5 min` yields the expired
error with its record left in place (not deleted); a valid
non-persistent token has its record deleted before the subject is
loaded, so an immediate second use of the same secret fails as an
unknown token; persistent tokens are reusable and never auto-deleted. -/
theorem C6_magic_link_authentication :
    (∀ (svc : AuthService) (dir : Directory) (s : String) (now : Nat) (jti : String),
        findLoginToken dir s = none →
        authenticateLoginToken svc dir s now jti = (.error .invalidToken, dir)) ∧
    (∀ (svc : AuthService) (dir : Directory) (s : String) (now : Nat) (jti : String)
        (lt : LoginToken), findLoginToken dir s = some lt →
        lt.permanent = false → lt.createdAt + 300 < now →
        authenticateLoginToken svc dir s now jti = (.error .tokenExpired, dir)) ∧
    (∀ (svc : AuthService) (dir : Directory) (s : String) (now now2 : Nat)
        (jti jti2 : String) (lt : LoginToken),
        findLoginToken dir s = some lt → lt.permanent = false →
        ¬ lt.createdAt + 300 < now →
        (authenticateLoginToken svc dir s now jti).2 = deleteLoginToken dir lt.id ∧
        (∀ (u : User) (meta : Option MetaRec),
          findWithMeta (deleteLoginToken dir lt.id) lt.userID = some (u, meta) →
          (authenticateLoginToken svc dir s now jti).1 =
            .ok { accessToken := generateAccess svc.secretKey svc.accessTokenTTL now
                    u.id (u.boddleUID.getD "") u.email (getFullName meta) u.metaType
                    u.metaID jti,
                  user := u, meta := meta }) ∧
        ((∀ t ∈ dir.loginTokens, t.secret = s → t.id = lt.id) →
          (authenticateLoginToken svc (authenticateLoginToken svc dir s now jti).2
            s now2 jti2).1 = .error .invalidToken)) ∧
    (∀ (svc : AuthService) (dir : Directory) (s : String) (now : Nat) (jti : String)
        (lt : LoginToken), findLoginToken dir s = some lt → lt.permanent = true →
        (authenticateLoginToken svc dir s now jti).2 = dir ∧
        (∀ (u : User) (meta : Option MetaRec),
          findWithMeta dir lt.userID = some (u, meta) →
          (authenticateLoginToken svc dir s now jti).1 =
            .ok { accessToken := generateAccess svc.secretKey svc.accessTokenTTL now
                    u.id (u.boddleUID.getD "") u.email (getFullName meta) u.metaType
                    u.metaID jti,
                  user := u, meta := meta })) := by
  refine ⟨fun svc dir s now jti h => magic_unknown svc dir s now jti h,
    fun svc dir s now jti lt hf hp hexp => by simp [authenticateLoginToken, hf, hp, hexp],
    fun svc dir s now now2 jti jti2 lt hf hp hexp =>
      ⟨magic_valid_state svc dir s now jti lt hf hp hexp,
       fun u meta hm => by simp [authenticateLoginToken, hf, hp, hexp, hm],
       fun huniq => magic_second_use svc dir s now now2 jti jti2 lt hf hp hexp huniq⟩,
    fun svc dir s now jti lt hf hp => ⟨?_, fun u meta hm => by
      simp [authenticateLoginToken, hf, hp, hm]⟩⟩
  simp only [authenticateLoginToken, hf, hp]
  cases hm : findWithMeta dir lt.userID with
  | none => simp [hm]
  | some um => obtain ⟨u, meta⟩ := um; simp [hm]

/-- Witness for C6 at the spec's S3 seed values: the fresh token
(age 60 s) logs the user in, deletes the row, and the second use of
the same secret fails as an unknown token. -/
theorem C6_magic_link_authentication_witness :
    (authenticateLoginToken svcDefault dirMagicLink "abc123" 60 "j").2 =
      deleteLoginToken dirMagicLink 1 ∧
    (authenticateLoginToken svcDefault
      (authenticateLoginToken svcDefault dirMagicLink "abc123" 60 "j").2
      "abc123" 61 "j2").1 = .error .invalidToken ∧
    authenticateLoginToken svcDefault dirMagicLink "zzz" 60 "j" =
      (.error .invalidToken, dirMagicLink) :=
  ⟨(C6_magic_link_authentication.2.2.1 svcDefault dirMagicLink "abc123" 60 61 "j" "j2"
      ⟨1, 123, "abc123", false, 0⟩ (by decide) (by decide) (by decide)).1,
   (C6_magic_link_authentication.2.2.1 svcDefault dirMagicLink "abc123" 60 61 "j" "j2"
      ⟨1, 123, "abc123", false, 0⟩ (by decide) (by decide) (by decide)).2.2 (by decide),
   C6_magic_link_authentication.1 svcDefault dirMagicLink "zzz" 60 "j" (by decide)⟩

/-- C10: for a valid non-persistent magic-link token the record is
deleted before the subject is loaded, so when the subject load fails
the call errors while the token is already consumed, and a retry with
the same secret fails as an unknown token. -/
theorem C10_token_consumed_on_error (svc : AuthService) (dir : Directory)
    (s : String) (now now2 : Nat) (jti jti2 : String) (lt : LoginToken)
    (hf : findLoginToken dir s = some lt) (hp : lt.permanent = false)
    (hexp : ¬ lt.createdAt + 300 < now)
    (hm : findWithMeta (deleteLoginToken dir lt.id) lt.userID = none)
    (huniq : ∀ t ∈ dir.loginTokens, t.secret = s → t.id = lt.id) :
    (authenticateLoginToken svc dir s now jti).1 = .error .userNotFound ∧
    (authenticateLoginToken svc dir s now jti).2 = deleteLoginToken dir lt.id ∧
    findLoginToken (authenticateLoginToken svc dir s now jti).2 s = none ∧
    (authenticateLoginToken svc (authenticateLoginToken svc dir s now jti).2
      s now2 jti2).1 = .error .invalidToken := by
  refine ⟨by simp [authenticateLoginToken, hf, hp, hexp, hm],
    magic_valid_state svc dir s now jti lt hf hp hexp, ?_,
    magic_second_use svc dir s now now2 jti jti2 lt hf hp hexp huniq⟩
  rw [magic_valid_state svc dir s now jti lt hf hp hexp]
  exact findLoginToken_deleteLoginToken dir s lt.id huniq

/-- Witness for C10: a token whose subject is missing from the
directory is consumed by the failing call and unknown on retry. -/
theorem C10_token_consumed_on_error_witness :
    (authenticateLoginToken svcDefault dirOrphanToken "orphan" 100 "j").1 =
      .error .userNotFound ∧
    (authenticateLoginToken svcDefault dirOrphanToken "orphan" 100 "j").2 =
      deleteLoginToken dirOrphanToken 1 ∧
    findLoginToken (authenticateLoginToken svcDefault dirOrphanToken "orphan"
      100 "j").2 "orphan" = none ∧
    (authenticateLoginToken svcDefault
      (authenticateLoginToken svcDefault dirOrphanToken "orphan" 100 "j").2
      "orphan" 101 "j2").1 = .error .invalidToken :=
  C10_token_consumed_on_error svcDefault dirOrphanToken "orphan" 100 101 "j" "j2"
    ⟨1, 999, "orphan", false, 0⟩ (by decide) (by decide) (by decide) (by decide)
    (by decide)

/-! ### Further helper lemmas for the limiter claims -/

lemma kvKeys_kvDel_sublist (kv : KV) (k : String) :
    (kvKeys (kvDel kv k)).Sublist (kvKeys kv) :=
  (List.filter_sublist kv).map Prod.fst

lemma not_mem_kvKeys_kvDel (kv : KV) (k : String) : k ∉ kvKeys (kvDel kv k) := by
  intro hm
  simp [kvKeys, kvDel, List.mem_map, List.mem_filter] at hm

lemma nodup_kvKeys_kvSet {kv : KV} (h : (kvKeys kv).Nodup) (k : String) (v t : Nat) :
    (kvKeys (kvSet kv k v t)).Nodup := by
  simp only [kvSet, kvKeys, List.map_cons]
  exact List.nodup_cons.mpr
    ⟨not_mem_kvKeys_kvDel kv k, (kvKeys_kvDel_sublist kv k).nodup h⟩

lemma nodup_kvKeys_kvDel {kv : KV} (h : (kvKeys kv).Nodup) (k : String) :
    (kvKeys (kvDel kv k)).Nodup :=
  (kvKeys_kvDel_sublist kv k).nodup h

/-- The lockout transition of `CheckLoginAttempt`: no live lockout and
a saturated counter produce the deny result and the post-state that
sets the marker and clears the counter. -/
lemma check_transition (l : Limiter) (kv : KV) (email ipAddress : String)
    (hlock : kvTTL kv (loginLockoutKey email ipAddress) ≤ 0)
    (hcount : l.maxAttempts ≤
      (((kvLookup kv (loginAttemptKey email ipAddress)).map
        (fun e => (e.value : Int))).getD 0)) :
    checkLoginAttempt l kv email ipAddress =
      (⟨false, 0, (l.lockoutDuration : Int)⟩,
       kvDel (kvSet kv (loginLockoutKey email ipAddress) 1 l.lockoutDuration)
         (loginAttemptKey email ipAddress)) := by
  simp only [checkLoginAttempt]
  rw [if_neg (by omega), if_pos (by omega)]

/-- The admission check either leaves the store unchanged or performs
the lockout transition. -/
lemma check_state_cases (l : Limiter) (kv : KV) (email ipAddress : String) :
    (checkLoginAttempt l kv email ipAddress).2 = kv ∨
    (checkLoginAttempt l kv email ipAddress).2 =
      kvDel (kvSet kv (loginLockoutKey email ipAddress) 1 l.lockoutDuration)
        (loginAttemptKey email ipAddress) := by
  simp only [checkLoginAttempt]
  by_cases h1 : kvTTL kv (loginLockoutKey email ipAddress) > 0
  · rw [if_pos h1]
    exact Or.inl rfl
  · rw [if_neg h1]
    by_cases h2 : l.maxAttempts -
        ((kvLookup kv (loginAttemptKey email ipAddress)).map
          (fun e => (e.value : Int))).getD 0 ≤ 0
    · rw [if_pos h2]
      exact Or.inr rfl
    · rw [if_neg h2]
      exact Or.inl rfl

/-- C4: with no live lockout marker and a counter at or above
`max_attempts`, the admission check denies, installs the lockout
marker with TTL equal to the lockout duration and deletes the counter;
for every `k` seconds of elapsed time short of the duration, the next
check still denies and reports exactly the remaining time, which never
exceeds the duration; and concretely, from an empty store, after five
recorded failures the 6th and the 7th attempts are both denied with
the full 900 s lockout reported. -/
theorem C4_lockout_protocol :
    (∀ (l : Limiter) (kv : KV) (email ipAddress : String),
        kvTTL kv (loginLockoutKey email ipAddress) ≤ 0 →
        l.maxAttempts ≤
          (((kvLookup kv (loginAttemptKey email ipAddress)).map
            (fun e => (e.value : Int))).getD 0) →
        (checkLoginAttempt l kv email ipAddress).1 =
          ⟨false, 0, (l.lockoutDuration : Int)⟩ ∧
        kvLookup (checkLoginAttempt l kv email ipAddress).2
          (loginLockoutKey email ipAddress) = some ⟨1, some l.lockoutDuration⟩ ∧
        kvLookup (checkLoginAttempt l kv email ipAddress).2
          (loginAttemptKey email ipAddress) = none) ∧
    (∀ (l : Limiter) (kv : KV) (email ipAddress : String),
        (kvKeys kv).Nodup →
        kvTTL kv (loginLockoutKey email ipAddress) ≤ 0 →
        l.maxAttempts ≤
          (((kvLookup kv (loginAttemptKey email ipAddress)).map
            (fun e => (e.value : Int))).getD 0) →
        ∀ k : Nat, k < l.lockoutDuration →
          (checkLoginAttempt l
              (kvSteps k (checkLoginAttempt l kv email ipAddress).2)
              email ipAddress).1 =
            ⟨false, 0, ((l.lockoutDuration - k : Nat) : Int)⟩ ∧
          ((l.lockoutDuration - k : Nat) : Int) ≤ (l.lockoutDuration : Int)) ∧
    ((checkLoginAttempt limiterDefault
        (failedLoginAttempt limiterDefault
          (failedLoginAttempt limiterDefault
            (failedLoginAttempt limiterDefault
              (failedLoginAttempt limiterDefault
                (failedLoginAttempt limiterDefault [] "x@y.com" "10.0.0.1").2
                "x@y.com" "10.0.0.1").2
              "x@y.com" "10.0.0.1").2
            "x@y.com" "10.0.0.1").2
          "x@y.com" "10.0.0.1").2
        "x@y.com" "10.0.0.1").1 = ⟨false, 0, 900⟩ ∧
     (checkLoginAttempt limiterDefault
        (checkLoginAttempt limiterDefault
          (failedLoginAttempt limiterDefault
            (failedLoginAttempt limiterDefault
              (failedLoginAttempt limiterDefault
                (failedLoginAttempt limiterDefault
                  (failedLoginAttempt limiterDefault [] "x@y.com" "10.0.0.1").2
                  "x@y.com" "10.0.0.1").2
                "x@y.com" "10.0.0.1").2
              "x@y.com" "10.0.0.1").2
            "x@y.com" "10.0.0.1").2
          "x@y.com" "10.0.0.1").2
        "x@y.com" "10.0.0.1").1 = ⟨false, 0, 900⟩) := by
  refine ⟨?_, ?_, by decide, by decide⟩
  · intro l kv email ipAddress hlock hcount
    rw [check_transition l kv email ipAddress hlock hcount]
    refine ⟨rfl, ?_, ?_⟩
    · rw [kvLookup_kvDel,
        if_neg (lockoutKey_ne_attemptKey email ipAddress email ipAddress),
        kvLookup_kvSet, if_pos rfl]
    · rw [kvLookup_kvDel, if_pos rfl]
  · intro l kv email ipAddress hnd hlock hcount k hk
    rw [check_transition l kv email ipAddress hlock hcount]
    have hnd' : (kvKeys (kvDel (kvSet kv (loginLockoutKey email ipAddress) 1
        l.lockoutDuration) (loginAttemptKey email ipAddress))).Nodup :=
      nodup_kvKeys_kvDel (nodup_kvKeys_kvSet hnd _ _ _) _
    have hlk : kvLookup (kvDel (kvSet kv (loginLockoutKey email ipAddress) 1
        l.lockoutDuration) (loginAttemptKey email ipAddress))
        (loginLockoutKey email ipAddress) = some ⟨1, some l.lockoutDuration⟩ := by
      rw [kvLookup_kvDel,
        if_neg (lockoutKey_ne_attemptKey email ipAddress email ipAddress),
        kvLookup_kvSet, if_pos rfl]
    obtain ⟨hlook, _⟩ := kvSteps_lookup_entry hnd' hlk k hk
    have httl : kvTTL (kvSteps k (kvDel (kvSet kv (loginLockoutKey email ipAddress) 1
        l.lockoutDuration) (loginAttemptKey email ipAddress)))
        (loginLockoutKey email ipAddress) = ((l.lockoutDuration - k : Nat) : Int) := by
      unfold kvTTL
      rw [hlook]
    constructor
    · simp only [checkLoginAttempt, httl]
      rw [if_pos (by omega)]
    · omega

/-- Witness for C4: the transition at a counter of five, and the state
300 s into the lockout still denying with 600 s reported. -/
theorem C4_lockout_protocol_witness :
    ((checkLoginAttempt limiterDefault kvCounter5 "x@y.com" "10.0.0.1").1 =
        ⟨false, 0, (limiterDefault.lockoutDuration : Int)⟩ ∧
      kvLookup (checkLoginAttempt limiterDefault kvCounter5 "x@y.com" "10.0.0.1").2
        (loginLockoutKey "x@y.com" "10.0.0.1") =
          some ⟨1, some limiterDefault.lockoutDuration⟩ ∧
      kvLookup (checkLoginAttempt limiterDefault kvCounter5 "x@y.com" "10.0.0.1").2
        (loginAttemptKey "x@y.com" "10.0.0.1") = none) ∧
    ((checkLoginAttempt limiterDefault
        (kvSteps 300
          (checkLoginAttempt limiterDefault kvCounter5 "x@y.com" "10.0.0.1").2)
        "x@y.com" "10.0.0.1").1 =
      ⟨false, 0, ((limiterDefault.lockoutDuration - 300 : Nat) : Int)⟩ ∧
     ((limiterDefault.lockoutDuration - 300 : Nat) : Int) ≤
       (limiterDefault.lockoutDuration : Int)) :=
  ⟨C4_lockout_protocol.1 limiterDefault kvCounter5 "x@y.com" "10.0.0.1"
      (by decide) (by decide),
   C4_lockout_protocol.2.1 limiterDefault kvCounter5 "x@y.com" "10.0.0.1"
      (by decide) (by decide) (by decide) 300 (by decide)⟩

/-- C8 counterexample: in a state holding only the lockout marker —
which satisfies the invariant — a failure record recreates the
counter while the marker persists, so the invariant is violated:
`RecordFailedAttempt` does not preserve it. -/
theorem C8_counterexample :
    lockoutCounterInvariant kvLockedOut ∧
    ¬ lockoutCounterInvariant
        (recordFailedAttempt limiterDefault kvLockedOut "x@y.com" "10.0.0.1") := by
  constructor
  · intro e i _
    rw [show kvLockedOut =
        [(loginLockoutKey "x@y.com" "10.0.0.1", ⟨1, some 900⟩)] from rfl,
      kvLookup_cons, if_neg (lockoutKey_ne_attemptKey "x@y.com" "10.0.0.1" e i),
      kvLookup_nil]
  · intro hinv
    have h2 := hinv "x@y.com" "10.0.0.1" (by decide)
    exact absurd h2 (by decide)

/-- C8 (amended): the admission check, the success record and the
lockout clear each preserve the lockout-implies-no-counter invariant
for every pair; the failure record preserves it only when the
operating pair's lockout marker is absent — which the orchestrator's
call order guarantees, since failures are recorded only after an
admitted check — but not from an arbitrary locked-out state. -/
theorem C8_invariant_preservation :
    (∀ (l : Limiter) (kv : KV) (email ipAddress : String),
        lockoutCounterInvariant kv →
        lockoutCounterInvariant (checkLoginAttempt l kv email ipAddress).2) ∧
    (∀ (kv : KV) (email ipAddress : String),
        lockoutCounterInvariant kv →
        lockoutCounterInvariant (recordSuccessfulAttempt kv email ipAddress)) ∧
    (∀ (kv : KV) (email ipAddress : String),
        lockoutCounterInvariant kv →
        lockoutCounterInvariant (clearLockout kv email ipAddress)) ∧
    (∀ (l : Limiter) (kv : KV) (email ipAddress : String),
        kvLookup kv (loginLockoutKey email ipAddress) = none →
        lockoutCounterInvariant kv →
        lockoutCounterInvariant (recordFailedAttempt l kv email ipAddress)) := by
  refine ⟨?_, ?_, ?_, ?_⟩
  · intro l kv email ipAddress hinv
    rcases check_state_cases l kv email ipAddress with hs | hs <;> rw [hs]
    · exact hinv
    · intro e' i' hlock'
      rw [kvLookup_kvDel, if_neg (lockoutKey_ne_attemptKey e' i' email ipAddress),
        kvLookup_kvSet] at hlock'
      rw [kvLookup_kvDel]
      by_cases haa : loginAttemptKey e' i' = loginAttemptKey email ipAddress
      · rw [if_pos haa]
      · rw [if_neg haa, kvLookup_kvSet,
          if_neg (Ne.symm (lockoutKey_ne_attemptKey email ipAddress e' i'))]
        by_cases hll : loginLockoutKey e' i' = loginLockoutKey email ipAddress
        · exact absurd ((attemptKey_eq_iff_lockoutKey_eq e' i' email ipAddress).mpr hll) haa
        · rw [if_neg hll] at hlock'
          exact hinv e' i' hlock'
  · intro kv email ipAddress hinv e' i' hlock'
    unfold recordSuccessfulAttempt at hlock' ⊢
    rw [kvLookup_kvDel, if_neg (lockoutKey_ne_attemptKey e' i' email ipAddress)] at hlock'
    rw [kvLookup_kvDel]
    by_cases haa : loginAttemptKey e' i' = loginAttemptKey email ipAddress
    · rw [if_pos haa]
    · rw [if_neg haa]
      exact hinv e' i' hlock'
  · intro kv email ipAddress hinv e' i' hlock'
    unfold clearLockout at hlock' ⊢
    rw [kvLookup_kvDel, if_neg (lockoutKey_ne_attemptKey e' i' email ipAddress),
      kvLookup_kvDel] at hlock'
    by_cases hll : loginLockoutKey e' i' = loginLockoutKey email ipAddress
    · rw [if_pos hll] at hlock'
      exact absurd rfl hlock'
    · rw [if_neg hll] at hlock'
      rw [kvLookup_kvDel]
      by_cases haa : loginAttemptKey e' i' = loginAttemptKey email ipAddress
      · rw [if_pos haa]
      · rw [if_neg haa, kvLookup_kvDel,
          if_neg (Ne.symm (lockoutKey_ne_attemptKey email ipAddress e' i'))]
        exact hinv e' i' hlock'
  · intro l kv email ipAddress habs hinv e' i' hlock'
    rw [kvLookup_recordFailedAttempt_ne l kv email ipAddress _
      (lockoutKey_ne_attemptKey e' i' email ipAddress)] at hlock'
    by_cases haa : loginAttemptKey e' i' = loginAttemptKey email ipAddress
    · exfalso
      have hll := (attemptKey_eq_iff_lockoutKey_eq e' i' email ipAddress).mp haa
      rw [hll, habs] at hlock'
      exact hlock' rfl
    · rw [kvLookup_recordFailedAttempt_ne l kv email ipAddress _ haa]
      exact hinv e' i' hlock'

/-- Witness for C8: preservation applied at the empty store for the
admission check and — under the absent-lockout premise — for the
failure record. -/
theorem C8_invariant_preservation_witness :
    lockoutCounterInvariant (checkLoginAttempt limiterDefault [] "x@y.com" "10.0.0.1").2 ∧
    lockoutCounterInvariant (recordFailedAttempt limiterDefault [] "x@y.com" "10.0.0.1") :=
  ⟨C8_invariant_preservation.1 limiterDefault [] "x@y.com" "10.0.0.1"
      (fun _ _ _ => rfl),
   C8_invariant_preservation.2.2.2 limiterDefault [] "x@y.com" "10.0.0.1" rfl
      (fun _ _ _ => rfl)⟩

/-- C7 counterexample: the claim's resolution order admits only three
outcomes (provider-column hit, email hit linked and returned,
no-account); for a parent account found by email, the code neither
links nor returns the subject nor fails with the no-account error —
it refuses with an unsupported-user-type error. -/
theorem C7_counterexample :
    findOrCreateGoogleUser dirParentOnly "google-new" "p@x.com" =
      (.error (.unsupportedUserType "Parent"), dirParentOnly) := by decide

/-- C7 (amended): resolution proceeds in order — a teacher or student
role record whose Google column equals the provider subject returns
that record's subject with no directory write; otherwise a subject
found by email whose discriminator is Teacher or Student has its role
record's Google column set (account link) before being returned, a
subject of any other discriminator is refused with an
unsupported-user-type error, and an unknown email fails with the
no-account error; in every branch the subject table, parent table and
token table are untouched and no role record is created. -/
theorem C7_linking_policy :
    (∀ (dir : Directory) (sub em : String) (t : Teacher),
        findTeacherByGoogleUID dir sub = some t →
        findOrCreateGoogleUser dir sub em =
          (.ok (findByID dir t.userID, .teacher t), dir)) ∧
    (∀ (dir : Directory) (sub em : String) (s : Student),
        findTeacherByGoogleUID dir sub = none →
        findStudentByGoogleUID dir sub = some s →
        findOrCreateGoogleUser dir sub em =
          (.ok (findByID dir s.userID, .student s), dir)) ∧
    (∀ (dir : Directory) (sub em : String),
        findTeacherByGoogleUID dir sub = none →
        findStudentByGoogleUID dir sub = none →
        findByEmail dir em = none →
        findOrCreateGoogleUser dir sub em = (.error .noAccount, dir)) ∧
    (∀ (dir : Directory) (sub em : String) (u : User) (t : Teacher),
        findTeacherByGoogleUID dir sub = none →
        findStudentByGoogleUID dir sub = none →
        findByEmail dir em = some u → u.metaType = "Teacher" →
        findTeacher dir u.metaID = some t →
        findOrCreateGoogleUser dir sub em =
          (.ok (some u, .teacher { t with googleUID := some sub }),
           updateTeacherGoogleUID dir t.id sub)) ∧
    (∀ (dir : Directory) (sub em : String) (u : User) (s : Student),
        findTeacherByGoogleUID dir sub = none →
        findStudentByGoogleUID dir sub = none →
        findByEmail dir em = some u → u.metaType = "Student" →
        findStudent dir u.metaID = some s →
        findOrCreateGoogleUser dir sub em =
          (.ok (some u, .student { s with googleUID := some sub }),
           updateStudentGoogleUID dir s.id sub)) ∧
    (∀ (dir : Directory) (sub em : String) (u : User),
        findTeacherByGoogleUID dir sub = none →
        findStudentByGoogleUID dir sub = none →
        findByEmail dir em = some u →
        u.metaType ≠ "Teacher" → u.metaType ≠ "Student" →
        findOrCreateGoogleUser dir sub em =
          (.error (.unsupportedUserType u.metaType), dir)) ∧
    (∀ (dir : Directory) (sub em : String),
        (findOrCreateGoogleUser dir sub em).2.users = dir.users ∧
        (findOrCreateGoogleUser dir sub em).2.parents = dir.parents ∧
        (findOrCreateGoogleUser dir sub em).2.loginTokens = dir.loginTokens ∧
        (findOrCreateGoogleUser dir sub em).2.teachers.map (fun t => t.id) =
          dir.teachers.map (fun t => t.id) ∧
        (findOrCreateGoogleUser dir sub em).2.students.map (fun s => s.id) =
          dir.students.map (fun s => s.id)) := by
  refine ⟨?_, ?_, ?_, ?_, ?_, ?_, ?_⟩
  · intro dir sub em t h1
    simp [findOrCreateGoogleUser, h1]
  · intro dir sub em s h1 h2
    simp [findOrCreateGoogleUser, h1, h2]
  · intro dir sub em h1 h2 h3
    simp [findOrCreateGoogleUser, h1, h2, h3]
  · intro dir sub em u t h1 h2 h3 hT h4
    simp [findOrCreateGoogleUser, h1, h2, h3, hT, h4]
  · intro dir sub em u s h1 h2 h3 hS h4
    simp [findOrCreateGoogleUser, h1, h2, h3, hS, h4]
  · intro dir sub em u h1 h2 h3 hT hS
    simp [findOrCreateGoogleUser, h1, h2, h3, hT, hS]
  · intro dir sub em
    unfold findOrCreateGoogleUser
    cases h1 : findTeacherByGoogleUID dir sub with
    | some t => simp
    | none =>
      cases h2 : findStudentByGoogleUID dir sub with
      | some s => simp
      | none =>
        cases h3 : findByEmail dir em with
        | none => simp
        | some u =>
          by_cases hT : u.metaType = "Teacher"
          · simp only [hT, if_true]
            cases h4 : findTeacher dir u.metaID with
            | none => simp
            | some t =>
              simp [h4, updateTeacherGoogleUID, List.map_map, Function.comp]
              intro a _
              by_cases h : a.id = t.id <;> simp [h]
          · by_cases hS : u.metaType = "Student"
            · simp only [hT, hS, if_false, if_true]
              cases h4 : findStudent dir u.metaID with
              | none => simp
              | some s =>
                simp [h4, updateStudentGoogleUID, List.map_map, Function.comp]
                intro a _
                by_cases h : a.id = s.id <;> simp [h]
            · simp [hT, hS]

/-- Witness for C7: the spec's S5 refusal against an empty directory,
and the S4 account link of the teacher by email. -/
theorem C7_linking_policy_witness :
    findOrCreateGoogleUser ⟨[], [], [], [], []⟩ "google-new" "unknown@example.com" =
      (.error .noAccount, ⟨[], [], [], [], []⟩) ∧
    findOrCreateGoogleUser dirPassword "google-xyz" "x@y.com" =
      (.ok (some ⟨5, "x@y.com", bcryptDigest "pw123", some "u-5", "Teacher", 77⟩,
        .teacher ⟨77, 5, "A", "B", some "google-xyz", none⟩),
       updateTeacherGoogleUID dirPassword 77 "google-xyz") :=
  ⟨C7_linking_policy.2.2.1 ⟨[], [], [], [], []⟩ "google-new" "unknown@example.com"
      (by decide) (by decide) (by decide),
   C7_linking_policy.2.2.2.1 dirPassword "google-xyz" "x@y.com"
      ⟨5, "x@y.com", bcryptDigest "pw123", some "u-5", "Teacher", 77⟩
      ⟨77, 5, "A", "B", none, none⟩
      (by decide) (by decide) (by decide) (by decide) (by decide)⟩

end Reservoir
